import Mathlib

/-!
# Verification of the ERFMS backend core

A shallow embedding of the schema-validated generic collection access layer
of the ERFMS backend (`schemas.py` and `main.py`): the record schema
registry (eight pydantic models), the validator semantics, the generic
`list_items` / `create_item` gateway helpers, and the `/schema`
introspection endpoint, together with theorems settling the spec claims.
-/

namespace ERFMS

/-- A JSON-ish value as stored in payloads and documents.  `vOid s` is a
store-native ObjectId whose string form is `s`. -/
inductive Value where
  | vNull : Value
  | vStr : String → Value
  | vNum : Rat → Value
  | vBool : Bool → Value
  | vOid : String → Value
deriving DecidableEq, Repr

/-- The string form of a value (Python `str(...)` as used in `list_items`). -/
def strOfValue : Value → String
  | .vNull => "None"
  | .vStr s => s
  | .vNum q => toString q
  | .vBool b => if b then "True" else "False"
  | .vOid s => s

/-- Declared field types of the pydantic models (`str`, `EmailStr`, `bool`,
`int`, `float`, `date`, `datetime`, `Literal[...]`). -/
inductive FieldType where
  | str : FieldType
  | email : FieldType
  | bool : FieldType
  | int : FieldType
  | float : FieldType
  | date : FieldType
  | datetime : FieldType
  | enum : List String → FieldType
deriving DecidableEq, Repr

/-- Sub-kinds of a validation error, each naming the offending field. -/
inductive FieldErr where
  | missingField : String → FieldErr
  | invalidFormat : String → FieldErr
  | constraintViolation : String → FieldErr
  | invalidEnumValue : String → FieldErr
deriving DecidableEq, Repr

/-- One declared field of a pydantic model: its name, base type, whether the
annotation is `Optional[...]`, the pydantic default (`none` means
`Field(...)`, i.e. required), the numeric lower bound (`ge=...`) if any, and
the declared description. -/
structure FieldSpec where
  name : String
  ftype : FieldType
  nullable : Bool
  default : Option Value
  ge : Option Rat
  description : Option String
deriving DecidableEq, Repr

/-- A field is required exactly when no default was declared
(pydantic `field.is_required()`). -/
def FieldSpec.required (f : FieldSpec) : Bool :=
  f.default.isNone

/-- A pydantic model: its class name and ordered fields. -/
structure RecordSchema where
  name : String
  fields : List FieldSpec
deriving DecidableEq, Repr

/-- `User` model of `schemas.py`. -/
def User : RecordSchema :=
  { name := "User"
    fields :=
      [ { name := "name", ftype := .str, nullable := false, default := none,
          ge := none, description := some "Full name" }
      , { name := "email", ftype := .email, nullable := false, default := none,
          ge := none, description := some "Email address" }
      , { name := "role", ftype := .enum ["admin", "manager", "auditor", "client"],
          nullable := false, default := some (.vStr "client"),
          ge := none, description := some "User role" }
      , { name := "is_active", ftype := .bool, nullable := false,
          default := some (.vBool true),
          ge := none, description := some "Whether user is active" } ] }

/-- `Client` model of `schemas.py`. -/
def Client : RecordSchema :=
  { name := "Client"
    fields :=
      [ { name := "name", ftype := .str, nullable := false, default := none,
          ge := none, description := some "Client name or company" }
      , { name := "contact_email", ftype := .email, nullable := true,
          default := some .vNull, ge := none,
          description := some "Primary contact email" }
      , { name := "contact_phone", ftype := .str, nullable := true,
          default := some .vNull, ge := none,
          description := some "Primary contact phone" }
      , { name := "address", ftype := .str, nullable := true,
          default := some .vNull, ge := none,
          description := some "Postal address" }
      , { name := "notes", ftype := .str, nullable := true,
          default := some .vNull, ge := none,
          description := some "Internal notes" } ] }

/-- `Document` model of `schemas.py`. -/
def Document : RecordSchema :=
  { name := "Document"
    fields :=
      [ { name := "project_id", ftype := .str, nullable := true,
          default := some .vNull, ge := none,
          description := some "Related project id" }
      , { name := "title", ftype := .str, nullable := false, default := none,
          ge := none, description := some "Document title" }
      , { name := "doc_type",
          ftype := .enum ["quote", "invoice", "contract", "photo", "audit_report",
                          "cee_attachment", "mar_attachment", "other"],
          nullable := false, default := some (.vStr "other"),
          ge := none, description := some "Type of the document" }
      , { name := "url", ftype := .str, nullable := true,
          default := some .vNull, ge := none,
          description := some "Public/secure URL to the file" }
      , { name := "version", ftype := .int, nullable := true,
          default := some (.vNum 1), ge := some 1,
          description := some "Version number" }
      , { name := "notes", ftype := .str, nullable := true,
          default := some .vNull, ge := none,
          description := some "Notes or description" } ] }

/-- `Project` model of `schemas.py`. -/
def Project : RecordSchema :=
  { name := "Project"
    fields :=
      [ { name := "title", ftype := .str, nullable := false, default := none,
          ge := none, description := some "Project title" }
      , { name := "client_id", ftype := .str, nullable := true,
          default := some .vNull, ge := none,
          description := some "Client reference (id)" }
      , { name := "manager_id", ftype := .str, nullable := true,
          default := some .vNull, ge := none,
          description := some "Assigned project manager (user id)" }
      , { name := "status",
          ftype := .enum ["draft", "in_progress", "awaiting_documents",
                          "awaiting_approval", "completed", "archived"],
          nullable := false, default := some (.vStr "draft"),
          ge := none, description := some "Overall project status" }
      , { name := "start_date", ftype := .date, nullable := true,
          default := some .vNull, ge := none,
          description := some "Planned start date" }
      , { name := "due_date", ftype := .date, nullable := true,
          default := some .vNull, ge := none,
          description := some "Planned due date" }
      , { name := "budget_eur", ftype := .float, nullable := true,
          default := some .vNull, ge := some 0,
          description := some "Budget in EUR" }
      , { name := "description", ftype := .str, nullable := true,
          default := some .vNull, ge := none,
          description := some "Short description" } ] }

/-- `Task` model of `schemas.py`. -/
def Task : RecordSchema :=
  { name := "Task"
    fields :=
      [ { name := "project_id", ftype := .str, nullable := false, default := none,
          ge := none, description := some "Related project id" }
      , { name := "title", ftype := .str, nullable := false, default := none,
          ge := none, description := some "Task title" }
      , { name := "assignee_id", ftype := .str, nullable := true,
          default := some .vNull, ge := none,
          description := some "User responsible" }
      , { name := "due_date", ftype := .date, nullable := true,
          default := some .vNull, ge := none,
          description := some "Due date" }
      , { name := "status", ftype := .enum ["todo", "in_progress", "blocked", "done"],
          nullable := false, default := some (.vStr "todo"),
          ge := none, description := none } ] }

/-- `CEEApplication` model of `schemas.py`. -/
def CEEApplication : RecordSchema :=
  { name := "CEEApplication"
    fields :=
      [ { name := "project_id", ftype := .str, nullable := false, default := none,
          ge := none, description := some "Related project id" }
      , { name := "status",
          ftype := .enum ["draft", "submitted", "awaiting_approval", "approved",
                          "rejected"],
          nullable := false, default := some (.vStr "draft"),
          ge := none, description := none }
      , { name := "submission_date", ftype := .date, nullable := true,
          default := some .vNull, ge := none, description := none }
      , { name := "approval_date", ftype := .date, nullable := true,
          default := some .vNull, ge := none, description := none }
      , { name := "cee_volume_kwh", ftype := .float, nullable := true,
          default := some .vNull, ge := some 0,
          description := some "CEE volume (kWh cumac)" }
      , { name := "cee_value_eur", ftype := .float, nullable := true,
          default := some .vNull, ge := some 0,
          description := some "Estimated/actual value in EUR" } ] }

/-- `MARApplication` model of `schemas.py`. -/
def MARApplication : RecordSchema :=
  { name := "MARApplication"
    fields :=
      [ { name := "project_id", ftype := .str, nullable := false, default := none,
          ge := none, description := some "Related project id" }
      , { name := "status",
          ftype := .enum ["pre_application", "submitted", "awaiting_instruction",
                          "instruction_in_progress", "grant_awarded",
                          "payment_received"],
          nullable := false, default := some (.vStr "pre_application"),
          ge := none, description := none }
      , { name := "amount_eur", ftype := .float, nullable := true,
          default := some .vNull, ge := some 0, description := none }
      , { name := "last_update", ftype := .datetime, nullable := true,
          default := some .vNull, ge := none, description := none } ] }

/-- `Audit` model of `schemas.py`. -/
def Audit : RecordSchema :=
  { name := "Audit"
    fields :=
      [ { name := "project_id", ftype := .str, nullable := false, default := none,
          ge := none, description := some "Related project id" }
      , { name := "status",
          ftype := .enum ["scheduled", "in_progress", "report_generated",
                          "client_reviewed"],
          nullable := false, default := some (.vStr "scheduled"),
          ge := none, description := none }
      , { name := "scheduled_date", ftype := .date, nullable := true,
          default := some .vNull, ge := none, description := none }
      , { name := "auditor_id", ftype := .str, nullable := true,
          default := some .vNull, ge := none, description := none }
      , { name := "report_document_id", ftype := .str, nullable := true,
          default := some .vNull, ge := none,
          description := some "Document id for audit report" } ] }

/-- The eight models in declaration order (the `models` list of
`get_schema` and the `__all__` order of `schemas.py`). -/
def registry : List RecordSchema :=
  [User, Client, Document, Project, Task, CEEApplication, MARApplication, Audit]

/-- The `COLLECTIONS` mapping of `main.py`: logical collection name to model. -/
def COLLECTIONS : List (String × RecordSchema) :=
  [ ("user", User)
  , ("client", Client)
  , ("document", Document)
  , ("project", Project)
  , ("task", Task)
  , ("ceeapplication", CEEApplication)
  , ("marapplication", MARApplication)
  , ("audit", Audit) ]

/-- A raw payload or stored document: an ordered association of field names
to values (a Python dict in insertion order). -/
abbrev Payload : Type := List (String × Value)

/-- Dict lookup: the value bound to `k`, if any (first binding wins). -/
def lookupKey (k : String) : Payload → Option Value
  | [] => none
  | (k', v) :: rest => if k' = k then some v else lookupKey k rest

/-- Whether the dict binds `k` (Python `k in d`). -/
def hasKey (k : String) (d : Payload) : Bool :=
  (lookupKey k d).isSome

/-- Dict key removal (Python `d.pop(k)` discarding the value). -/
def removeKey (k : String) (d : Payload) : Payload :=
  d.filter (fun p => p.1 ≠ k)

/-- Dict assignment (Python `d[k] = v`): overwrite in place when the key
exists, otherwise append the new binding at the end. -/
def setKey (k : String) (v : Value) (d : Payload) : Payload :=
  if hasKey k d then d.map (fun p => if p.1 = k then (k, v) else p)
  else d ++ [(k, v)]

/-- Split a character list on a separator character (the groups between
occurrences of the separator, in order). -/
def splitOnChar (c : Char) : List Char → List (List Char)
  | [] => [[]]
  | a :: rest =>
    if a = c then [] :: splitOnChar c rest
    else
      match splitOnChar c rest with
      | [] => [[a]]
      | g :: gs => (a :: g) :: gs

/-- Simplified RFC-5322-lite address syntax check standing for the
`EmailStr` validation performed by the external email-validator library:
exactly one `@` with a nonempty local part and a dotted domain of nonempty
labels. -/
def isValidEmail (s : String) : Bool :=
  match splitOnChar '@' s.data with
  | [local_, domain] =>
    !local_.isEmpty && !domain.isEmpty &&
      decide ((splitOnChar '.' domain).length ≥ 2) &&
      (splitOnChar '.' domain).all (fun p => !p.isEmpty)
  | _ => false

/-- Whether every character of a group is a decimal digit. -/
def allDigits (s : List Char) : Bool :=
  s.all Char.isDigit

/-- Simplified ISO-8601 date check (`YYYY-MM-DD`) standing for pydantic's
date parsing. -/
def isISODate (s : String) : Bool :=
  match splitOnChar '-' s.data with
  | [y, m, d] =>
    decide (y.length = 4) && decide (m.length = 2) && decide (d.length = 2) &&
      allDigits y && allDigits m && allDigits d
  | _ => false

/-- Simplified ISO-8601 datetime check (a date, optionally followed by a
`T` and a time part) standing for pydantic's datetime parsing. -/
def isISODateTime (s : String) : Bool :=
  match splitOnChar 'T' s.data with
  | [d] => isISODate ⟨d⟩
  | [d, _] => isISODate ⟨d⟩
  | _ => false

/-- Check a numeric lower-bound constraint (`ge=...`) on a parsed number. -/
def checkGe (f : FieldSpec) (q : Rat) : Except FieldErr Value :=
  match f.ge with
  | none => .ok (.vNum q)
  | some b => if b ≤ q then .ok (.vNum q) else .error (.constraintViolation f.name)

/-- Validate one present payload value against its field declaration:
`Optional` fields accept an explicit null; otherwise the value must match
the declared type, satisfy the numeric lower bound, and (for `Literal`
fields) be one of the allowed values. -/
def validateValue (f : FieldSpec) (v : Value) : Except FieldErr Value :=
  if f.nullable ∧ v = .vNull then .ok .vNull
  else
    match f.ftype, v with
    | .str, .vStr s => .ok (.vStr s)
    | .email, .vStr s =>
      if isValidEmail s then .ok (.vStr s) else .error (.invalidFormat f.name)
    | .bool, .vBool b => .ok (.vBool b)
    | .int, .vNum q =>
      if q.den = 1 then checkGe f q else .error (.invalidFormat f.name)
    | .float, .vNum q => checkGe f q
    | .date, .vStr s =>
      if isISODate s then .ok (.vStr s) else .error (.invalidFormat f.name)
    | .datetime, .vStr s =>
      if isISODateTime s then .ok (.vStr s) else .error (.invalidFormat f.name)
    | .enum allowed, .vStr s =>
      if s ∈ allowed then .ok (.vStr s) else .error (.invalidEnumValue f.name)
    | .enum _, _ => .error (.invalidEnumValue f.name)
    | _, _ => .error (.invalidFormat f.name)

/-- Validate one declared field against the payload: absent and required
fails with `missingField`; absent with a default takes the default; present
values go through `validateValue`. -/
def validateField (f : FieldSpec) (payload : Payload) :
    Except FieldErr (String × Value) :=
  match lookupKey f.name payload with
  | none =>
    match f.default with
    | none => .error (.missingField f.name)
    | some d => .ok (f.name, d)
  | some v => (validateValue f v).map (fun v' => (f.name, v'))

/-- Collect per-field results the way pydantic does: succeed with all
normalized bindings, or fail with the list of every field error. -/
def collectResults : List (Except FieldErr (String × Value)) →
    Except (List FieldErr) Payload
  | [] => .ok []
  | .ok a :: rest =>
    match collectResults rest with
    | .ok as_ => .ok (a :: as_)
    | .error es => .error es
  | .error e :: rest =>
    match collectResults rest with
    | .ok _ => .error [e]
    | .error es => .error (e :: es)

/-- Model validation: each declared field in schema order is checked against
the payload; unknown payload keys are never consulted; the normalized record
binds exactly the declared fields in declaration order. -/
def validate (m : RecordSchema) (payload : Payload) :
    Except (List FieldErr) Payload :=
  collectResults (m.fields.map (fun f => validateField f payload))

/-- One entry of the `/schema` response (`SchemaField` of `main.py`). -/
structure SchemaField where
  name : String
  type : String
  required : Bool
  description : Option String
deriving DecidableEq, Repr

/-- One collection entry of the `/schema` response. -/
structure CollectionDescriptor where
  name : String
  title : String
  fields : List SchemaField
deriving DecidableEq, Repr

/-- Python `s.lower()` on the ASCII model class names, character by
character. -/
def lowerName (s : String) : String :=
  ⟨s.data.map Char.toLower⟩

/-- The Python-side rendering of a field annotation as a type label string
(`field.annotation.__name__` when the annotation has a name, else
`str(field.annotation)`). -/
def typeLabel (f : FieldSpec) : String :=
  let base :=
    match f.ftype with
    | .str => "str"
    | .email => "EmailStr"
    | .bool => "bool"
    | .int => "int"
    | .float => "float"
    | .date => "date"
    | .datetime => "datetime"
    | .enum allowed =>
      "typing.Literal[" ++
        String.intercalate ", " (allowed.map (fun s => "\x27" ++ s ++ "\x27")) ++ "]"
  if f.nullable then "typing.Optional[" ++ base ++ "]" else base

/-- Describe one model for the `/schema` endpoint (the inner loop of
`get_schema`); `field.description or None` maps an empty description to
null. -/
def describeModel (m : RecordSchema) : CollectionDescriptor :=
  { name := lowerName m.name
    title := m.name
    fields :=
      m.fields.map (fun f =>
        { name := f.name
          type := typeLabel f
          required := f.required
          description := f.description.bind (fun d => if d = "" then none else some d) }) }

/-- The external document store's contents: collection name to its stored
documents, in store-native order. -/
abbrev DBState : Type := List (String × List Payload)

/-- The documents of one collection (empty when the collection is absent). -/
def collDocs (dbv : DBState) (collection : String) : List Payload :=
  match dbv with
  | [] => []
  | (c, docs) :: rest => if c = collection then docs else collDocs rest collection

/-- Process-wide application state: the store handle, `none` when the
database is not initialized (`db is None`). -/
structure AppState where
  db : Option DBState
deriving DecidableEq

/-- A call issued to the external store, recorded for the side-effect
contract (exactly one read query per list, one insert per create, zero when
unavailable). -/
inductive StoreCall where
  | query : String → Option Nat → StoreCall
  | insert : String → Payload → StoreCall
deriving DecidableEq, Repr

/-- Modelled from the spec: the Store Adapter's `findMany` wrapped by
`get_documents` of the missing `database.py` — returns up to `limit` raw
stored documents of the collection, each carrying the store-native
identifier, in store-native order, with no filter. -/
def get_documents (dbv : DBState) (collection : String) (limit : Option Nat) :
    List Payload :=
  match limit with
  | none => collDocs dbv collection
  | some l => (collDocs dbv collection).take l

/-- Modelled from the spec: the Store Adapter's `insertOne` wrapped by
`create_document` of the missing `database.py` — the store assigns a fresh
identifier at that instant, stores the record under it, and returns the
identifier's string form. -/
def create_document (dbv : DBState) (collection : String) (rec : Payload) :
    String × DBState :=
  let assigned := toString (collDocs dbv collection).length
  let doc : Payload := (rec ++ [("_id", .vOid assigned)] : List (String × Value))
  (assigned, (collection, collDocs dbv collection ++ [doc]) ::
    dbv.filter (fun p => p.1 ≠ collection))

/-- An HTTP error raised by the gateway helpers (`HTTPException`). -/
structure HTTPError where
  status : Nat
  detail : String
deriving DecidableEq, Repr

/-- The identifier-normalization step applied to each listed document (the
loop body of `list_items`): when the store-native `_id` key is present, it
is popped and the canonical `id` key is set to its string form. -/
def normalizeDoc (d : Payload) : Payload :=
  match lookupKey "_id" d with
  | none => d
  | some v => setKey "id" (.vStr (strOfValue v)) (removeKey "_id" d)

/-- `list_items` of `main.py`: fail 503 when the database handle is
uninitialized, otherwise issue one read query and normalize the store-native
identifier of every returned document.  The second component records the
store calls issued. -/
def list_items (st : AppState) (collection : String) (limit : Option Nat) :
    Except HTTPError (List Payload) × List StoreCall :=
  match st.db with
  | none => (.error { status := 503, detail := "Database not available" }, [])
  | some dbv =>
    let data := get_documents dbv collection limit
    (.ok (data.map normalizeDoc), [.query collection limit])

/-- `create_item` of `main.py`: fail 503 when the database handle is
uninitialized, otherwise issue one insert of the validated record and return
the store-assigned identifier.  The second component records the store
calls, the third the resulting application state. -/
def create_item (st : AppState) (collection : String) (rec : Payload) :
    Except HTTPError Payload × List StoreCall × AppState :=
  match st.db with
  | none => (.error { status := 503, detail := "Database not available" }, [], st)
  | some dbv =>
    let r := create_document dbv collection rec
    (.ok ([("id", .vStr r.1)] : List (String × Value)), [.insert collection rec],
      { db := some r.2 })

/-- `get_schema` of `main.py`: the `/schema` payload, built from the eight
models alone — the application state (the store handle and contents) is
never consulted. -/
def get_schema (_st : AppState) : List CollectionDescriptor :=
  registry.map describeModel

/-- Render an optional description as a JSON string or null. -/
def renderDescription : Option String → String
  | none => "null"
  | some d => "\"" ++ d ++ "\""

/-- Render one `/schema` field entry as JSON text. -/
def renderField (f : SchemaField) : String :=
  "\x7b\"name\": \"" ++ f.name ++ "\", \"type\": \"" ++ f.type ++
    "\", \"required\": " ++ (if f.required then "true" else "false") ++
    ", \"description\": " ++ renderDescription f.description ++ "\x7d"

/-- Render one collection descriptor as JSON text. -/
def renderDescriptor (c : CollectionDescriptor) : String :=
  "\x7b\"name\": \"" ++ c.name ++ "\", \"title\": \"" ++ c.title ++
    "\", \"fields\": [" ++
    String.intercalate ", " (c.fields.map renderField) ++ "]\x7d"

/-- Serialize the whole `/schema` response body, as the transport does
before putting it on the wire. -/
def renderSchemaPayload (cs : List CollectionDescriptor) : String :=
  "\x7b\"collections\": [" ++
    String.intercalate ", " (cs.map renderDescriptor) ++ "]\x7d"

/-! ## Helper lemmas -/

/-- Collecting results surfaces every per-field error: if some field check
failed with `e`, the overall result is an error list containing `e`. -/
theorem collectResults_error_mem {e : FieldErr}
    (l : List (Except FieldErr (String × Value))) (h : Except.error e ∈ l) :
    ∃ es, collectResults l = .error es ∧ e ∈ es := by
  induction l with
  | nil => cases h
  | cons x rest ih =>
    rcases List.mem_cons.mp h with h1 | h2
    · cases h1
      cases hc : collectResults rest with
      | ok as_ =>
        exact ⟨[e], by simp [collectResults, hc], List.mem_singleton.mpr rfl⟩
      | error es =>
        exact ⟨e :: es, by simp [collectResults, hc], List.mem_cons_self e es⟩
    · obtain ⟨es, hes, hmem⟩ := ih h2
      cases x with
      | ok a =>
        exact ⟨es, by simp [collectResults, hes], hmem⟩
      | error e' =>
        exact ⟨e' :: es, by simp [collectResults, hes], List.mem_cons_of_mem e' hmem⟩

/-- If a declared field errors against the payload, `validate` fails and its
error list contains that field's error. -/
theorem validate_error_mem {m : RecordSchema} {f : FieldSpec} {payload : Payload}
    {e : FieldErr} (hf : f ∈ m.fields) (hvf : validateField f payload = .error e) :
    ∃ es, validate m payload = .error es ∧ e ∈ es := by
  apply collectResults_error_mem
  rw [← hvf]
  exact List.mem_map_of_mem (fun g => validateField g payload) hf

/-- Looking up a key ignores a leading binding with a different key. -/
theorem lookupKey_cons_ne {k k' : String} (v : Value) (d : Payload) (h : k' ≠ k) :
    lookupKey k ((k', v) :: d) = lookupKey k d := by
  simp [lookupKey, h]

/-- A removed key can no longer be looked up. -/
theorem lookupKey_removeKey_self (k : String) (d : Payload) :
    lookupKey k (removeKey k d) = none := by
  induction d with
  | nil => rfl
  | cons p rest ih =>
    by_cases h : p.1 = k
    · simpa [removeKey, h] using ih
    · obtain ⟨k', v⟩ := p
      simp only [] at h
      simpa [removeKey, lookupKey, h] using ih

/-- Removing some key cannot make an absent key present. -/
theorem lookupKey_removeKey_none {k : String} (k' : String) {d : Payload}
    (h : lookupKey k d = none) : lookupKey k (removeKey k' d) = none := by
  induction d with
  | nil => rfl
  | cons p rest ih =>
    obtain ⟨k₀, v₀⟩ := p
    by_cases hk : k₀ = k
    · simp [lookupKey, hk] at h
    · rw [lookupKey_cons_ne v₀ rest hk] at h
      by_cases hk' : k₀ = k'
      · simpa [removeKey, hk'] using ih h
      · simpa [removeKey, lookupKey, hk', hk] using ih h

/-- Lookup passes over a prefix that does not bind the key. -/
theorem lookupKey_append {k : String} {l₁ : Payload} (l₂ : Payload)
    (h : lookupKey k l₁ = none) :
    lookupKey k (l₁ ++ l₂) = lookupKey k l₂ := by
  induction l₁ with
  | nil => rfl
  | cons p rest ih =>
    obtain ⟨k₀, v₀⟩ := p
    by_cases hk : k₀ = k
    · simp [lookupKey, hk] at h
    · rw [lookupKey_cons_ne v₀ rest hk] at h
      simpa [lookupKey, hk] using ih h

/-- Removing an absent key changes nothing. -/
theorem removeKey_of_absent {k : String} {d : Payload}
    (h : lookupKey k d = none) : removeKey k d = d := by
  induction d with
  | nil => rfl
  | cons p rest ih =>
    obtain ⟨k₀, v₀⟩ := p
    by_cases hk : k₀ = k
    · simp [lookupKey, hk] at h
    · rw [lookupKey_cons_ne v₀ rest hk] at h
      simpa [removeKey, hk] using ih h

/-- Removal distributes over concatenation. -/
theorem removeKey_append (k : String) (l₁ l₂ : Payload) :
    removeKey k (l₁ ++ l₂) = removeKey k l₁ ++ removeKey k l₂ :=
  List.filter_append l₁ l₂

/-- Dict assignment of a fresh key appends the binding at the end. -/
theorem setKey_of_absent (k : String) (v : Value) {d : Payload}
    (h : lookupKey k d = none) : setKey k v d = d ++ [(k, v)] := by
  simp [setKey, hasKey, h]

/-- The identifier-normalization step, on a document that carries a
store-native `_id` and no domain `id` field: `_id` disappears, a string
`id` appears holding the string form, and every other binding passes
through unchanged, in order. -/
theorem normalizeDoc_spec {d : Payload} {v : Value}
    (h1 : lookupKey "_id" d = some v) (h2 : lookupKey "id" d = none) :
    normalizeDoc d = removeKey "_id" d ++ [("id", .vStr (strOfValue v))] ∧
    lookupKey "_id" (normalizeDoc d) = none ∧
    lookupKey "id" (normalizeDoc d) = some (.vStr (strOfValue v)) ∧
    removeKey "id" (normalizeDoc d) = removeKey "_id" d := by
  have hid : lookupKey "id" (removeKey "_id" d) = none :=
    lookupKey_removeKey_none "_id" h2
  have heq : normalizeDoc d = removeKey "_id" d ++ [("id", .vStr (strOfValue v))] := by
    rw [normalizeDoc, h1]
    exact setKey_of_absent _ _ hid
  refine ⟨heq, ?_, ?_, ?_⟩
  · rw [heq, lookupKey_append _ (lookupKey_removeKey_self _ d)]
    simp [lookupKey]
  · rw [heq, lookupKey_append _ hid]
    simp [lookupKey]
  · rw [heq, removeKey_append, removeKey_of_absent hid]
    simp [removeKey]

/-- On a `float` field with lower bound 0, a present number is accepted
exactly when it is nonnegative. -/
theorem validateValue_float_ge0 {f : FieldSpec} (hft : f.ftype = .float)
    (hge : f.ge = some 0) (q : Rat) :
    validateValue f (.vNum q) =
      if (0 : Rat) ≤ q then .ok (.vNum q)
      else .error (.constraintViolation f.name) := by
  obtain ⟨name, ftype, nullable, default, ge, desc⟩ := f
  simp only [] at hft hge
  subst hft hge
  simp [validateValue, checkGe]

/-- On a `Literal` field, a present string is accepted exactly when it is
one of the allowed values. -/
theorem validateValue_enum {f : FieldSpec} {allowed : List String}
    (hft : f.ftype = .enum allowed) (s : String) :
    validateValue f (.vStr s) =
      if s ∈ allowed then .ok (.vStr s)
      else .error (.invalidEnumValue f.name) := by
  obtain ⟨name, ftype, nullable, default, ge, desc⟩ := f
  simp only [] at hft
  subst hft
  simp [validateValue]

/-- An `Optional` field accepts an explicitly supplied null and keeps it. -/
theorem validateValue_nullable {f : FieldSpec} (h : f.nullable = true) :
    validateValue f .vNull = .ok .vNull := by
  simp [validateValue, h]

/-! ## Claims -/

/-- C7: `describeAll` returns exactly 8 collection descriptors, one per
record kind in declaration order, each with `collectionName` the lowercase
kind name, `displayTitle` the kind name, and fields with the same count and
required-flags as the schema table of the eight models. -/
theorem C7_describeAll_descriptors (st : AppState) :
    (get_schema st).length = 8 ∧
    (get_schema st).map (fun c => c.name) = registry.map (fun m => lowerName m.name) ∧
    (get_schema st).map (fun c => c.title) = registry.map (fun m => m.name) ∧
    (get_schema st).map
        (fun c => (c.name, c.title, c.fields.length, c.fields.map (fun f => f.required))) =
      [ ("user", "User", 4, [true, true, false, false])
      , ("client", "Client", 5, [true, false, false, false, false])
      , ("document", "Document", 6, [false, true, false, false, false, false])
      , ("project", "Project", 8, [true, false, false, false, false, false, false, false])
      , ("task", "Task", 5, [true, true, false, false, false])
      , ("ceeapplication", "CEEApplication", 6, [true, false, false, false, false, false])
      , ("marapplication", "MARApplication", 4, [true, false, false, false])
      , ("audit", "Audit", 5, [true, false, false, false, false]) ] := by
  refine ⟨rfl, rfl, rfl, ?_⟩
  simp only [get_schema]
  decide

/-- C8: the record-kind-to-collection-name mapping (`COLLECTIONS`) is total
over the eight record kinds in order, injective (no two kinds share a
name), and every collection name is the lower-cased kind name. -/
theorem C8_collection_names_total_injective :
    COLLECTIONS.map Prod.snd = registry ∧
    (∀ p ∈ COLLECTIONS, p.1 = lowerName p.2.name) ∧
    (COLLECTIONS.map Prod.fst).Nodup := by
  refine ⟨rfl, by decide, by decide⟩

/-- C9: `describeAll` is deterministic — it depends only on the immutable
registry of eight models and never on the mutable application state, so two
calls with no intervening mutation (indeed, any two calls) produce the same
descriptors and byte-identical serialized output. -/
theorem C9_describeAll_deterministic (st₁ st₂ : AppState) :
    get_schema st₁ = get_schema st₂ ∧
    renderSchemaPayload (get_schema st₁) = renderSchemaPayload (get_schema st₂) :=
  ⟨rfl, rfl⟩

/-- C2: with the database handle uninitialized, `list_items` and
`create_item` both fail with HTTP 503 (`ServiceUnavailable`), issue zero
store calls, and leave the state untouched. -/
theorem C2_unavailable_store_no_calls (st : AppState) (hdb : st.db = none)
    (collection : String) (limit : Option Nat) (rec : Payload) :
    list_items st collection limit =
      (.error { status := 503, detail := "Database not available" }, []) ∧
    create_item st collection rec =
      (.error { status := 503, detail := "Database not available" }, [], st) := by
  obtain ⟨db⟩ := st
  simp only [] at hdb
  subst hdb
  exact ⟨rfl, rfl⟩

/-- Witness for C2 at a concrete uninitialized state. -/
theorem C2_unavailable_store_no_calls_witness :
    list_items { db := none } "project" (some 100) =
      (.error { status := 503, detail := "Database not available" }, []) ∧
    create_item { db := none } "ceeapplication" [("project_id", .vStr "p1")] =
      (.error { status := 503, detail := "Database not available" }, [],
        { db := none }) :=
  C2_unavailable_store_no_calls { db := none } rfl "project" (some 100)
    [("project_id", .vStr "p1")] |>.imp id
    (fun _ => C2_unavailable_store_no_calls { db := none } rfl "ceeapplication"
      (some 100) [("project_id", .vStr "p1")] |>.2)

/-- C4: for every record kind, a payload that omits a required field fails
validation and the error list names that field with `MissingField`; in
particular `createRecord("ceeapplication", {status: "submitted"})` fails
with exactly `MissingField("project_id")`. -/
theorem C4_missing_required_field :
    (∀ m ∈ registry, ∀ f ∈ m.fields, f.required = true →
      ∀ payload : Payload, lookupKey f.name payload = none →
      ∃ es, validate m payload = .error es ∧ FieldErr.missingField f.name ∈ es) ∧
    validate CEEApplication [("status", .vStr "submitted")] =
      .error [.missingField "project_id"] := by
  constructor
  · intro m _ f hf hreq payload hlook
    have hd : f.default = none := by
      rw [FieldSpec.required, Option.isNone_iff_eq_none] at hreq
      exact hreq
    have hvf : validateField f payload = .error (.missingField f.name) := by
      rw [validateField, hlook, hd]
    exact validate_error_mem hf hvf
  · rfl

/-- The required `project_id` field of `CEEApplication`, for use as a
concrete instantiation. -/
def ceeProjectIdField : FieldSpec :=
  { name := "project_id", ftype := .str, nullable := false, default := none,
    ge := none, description := some "Related project id" }

/-- Witness for C4: the general part applied to `CEEApplication.project_id`
and the empty payload. -/
theorem C4_missing_required_field_witness :
    ∃ es, validate CEEApplication ([] : Payload) = .error es ∧
      FieldErr.missingField "project_id" ∈ es :=
  C4_missing_required_field.1 CEEApplication (by decide) ceeProjectIdField
    (by decide) rfl [] rfl

/-- C5: for every field of every record kind declared with lower bound
`ge=0`, a negative number is rejected with `ConstraintViolation` naming the
field — both at the field check and inside a full validation whose payload
supplies the negative value — and zero is accepted; in particular
`createRecord("marapplication", {project_id: "p1", amount_eur: -5})` fails
with exactly `ConstraintViolation("amount_eur")`. -/
theorem C5_lower_bound_zero :
    (∀ m ∈ registry, ∀ f ∈ m.fields, f.ge = some 0 →
      (∀ q : Rat, q < 0 →
        validateValue f (.vNum q) = .error (.constraintViolation f.name)) ∧
      validateValue f (.vNum 0) = .ok (.vNum 0) ∧
      (∀ payload : Payload, ∀ q : Rat, q < 0 →
        lookupKey f.name payload = some (.vNum q) →
        ∃ es, validate m payload = .error es ∧
          FieldErr.constraintViolation f.name ∈ es)) ∧
    validate MARApplication [("project_id", .vStr "p1"), ("amount_eur", .vNum (-5))] =
      .error [.constraintViolation "amount_eur"] := by
  constructor
  · intro m hm f hf hge
    have hall : ∀ m' ∈ registry, ∀ f' ∈ m'.fields, f'.ge = some 0 →
        f'.ftype = FieldType.float := by decide
    have hfl : f.ftype = FieldType.float := hall m hm f hf hge
    have hneg : ∀ q : Rat, q < 0 →
        validateValue f (.vNum q) = .error (.constraintViolation f.name) := by
      intro q hq
      rw [validateValue_float_ge0 hfl hge q, if_neg (not_le.mpr hq)]
    refine ⟨hneg, ?_, ?_⟩
    · rw [validateValue_float_ge0 hfl hge 0, if_pos le_rfl]
    · intro payload q hq hlook
      have hvf : validateField f payload = .error (.constraintViolation f.name) := by
        simp only [validateField, hlook, hneg q hq, Except.map]
      exact validate_error_mem hf hvf
  · rfl

/-- The `amount_eur` field of `MARApplication`, for use as a concrete
instantiation. -/
def marAmountField : FieldSpec :=
  { name := "amount_eur", ftype := .float, nullable := true,
    default := some .vNull, ge := some 0, description := none }

/-- Witness for C5: `amount_eur` rejects `-1` and accepts `0`. -/
theorem C5_lower_bound_zero_witness :
    validateValue marAmountField (.vNum (-1)) =
      .error (.constraintViolation "amount_eur") ∧
    validateValue marAmountField (.vNum 0) = .ok (.vNum 0) :=
  ⟨(C5_lower_bound_zero.1 MARApplication (by decide) marAmountField
      (by decide) rfl).1 (-1) (by norm_num),
   (C5_lower_bound_zero.1 MARApplication (by decide) marAmountField
      (by decide) rfl).2.1⟩

/-- C6: for every enum (`Literal`) field of every record kind, a string
outside the declared allowed set is rejected with `InvalidEnumValue` naming
the field — both at the field check and inside a full validation whose
payload supplies it — and every declared allowed value is accepted. -/
theorem C6_enum_fields :
    ∀ m ∈ registry, ∀ f ∈ m.fields, ∀ allowed : List String,
      f.ftype = .enum allowed →
      (∀ s : String, s ∉ allowed →
        validateValue f (.vStr s) = .error (.invalidEnumValue f.name)) ∧
      (∀ s ∈ allowed, validateValue f (.vStr s) = .ok (.vStr s)) ∧
      (∀ payload : Payload, ∀ s : String, s ∉ allowed →
        lookupKey f.name payload = some (.vStr s) →
        ∃ es, validate m payload = .error es ∧
          FieldErr.invalidEnumValue f.name ∈ es) := by
  intro m hm f hf allowed hft
  have hout : ∀ s : String, s ∉ allowed →
      validateValue f (.vStr s) = .error (.invalidEnumValue f.name) := by
    intro s hs
    rw [validateValue_enum hft s, if_neg hs]
  refine ⟨hout, ?_, ?_⟩
  · intro s hs
    rw [validateValue_enum hft s, if_pos hs]
  · intro payload s hs hlook
    have hvf : validateField f payload = .error (.invalidEnumValue f.name) := by
      simp only [validateField, hlook, hout s hs, Except.map]
    exact validate_error_mem hf hvf

/-- The `role` field of `User`, for use as a concrete instantiation. -/
def userRoleField : FieldSpec :=
  { name := "role", ftype := .enum ["admin", "manager", "auditor", "client"],
    nullable := false, default := some (.vStr "client"),
    ge := none, description := some "User role" }

/-- Witness for C6: `role` rejects `"superadmin"` and accepts `"admin"`. -/
theorem C6_enum_fields_witness :
    validateValue userRoleField (.vStr "superadmin") =
      .error (.invalidEnumValue "role") ∧
    validateValue userRoleField (.vStr "admin") = .ok (.vStr "admin") :=
  ⟨(C6_enum_fields User (by decide) userRoleField (by decide)
      ["admin", "manager", "auditor", "client"] rfl).1 "superadmin" (by decide),
   (C6_enum_fields User (by decide) userRoleField (by decide)
      ["admin", "manager", "auditor", "client"] rfl).2.1 "admin" (by decide)⟩

/-- C3: for each of the eight record kinds, a payload holding exactly the
required fields with valid values validates successfully, and the
normalized record binds every declared field in order — optionals filled
with their declared default or null — and nothing else; moreover a payload
key not declared by the model is silently ignored by validation. -/
theorem C3_required_only_payload_defaults :
    (∀ n e : String, isValidEmail e = true →
      validate User [("name", .vStr n), ("email", .vStr e)] =
        .ok [("name", .vStr n), ("email", .vStr e), ("role", .vStr "client"),
             ("is_active", .vBool true)]) ∧
    (∀ n : String, validate Client [("name", .vStr n)] =
        .ok [("name", .vStr n), ("contact_email", .vNull), ("contact_phone", .vNull),
             ("address", .vNull), ("notes", .vNull)]) ∧
    (∀ t : String, validate Document [("title", .vStr t)] =
        .ok [("project_id", .vNull), ("title", .vStr t), ("doc_type", .vStr "other"),
             ("url", .vNull), ("version", .vNum 1), ("notes", .vNull)]) ∧
    (∀ t : String, validate Project [("title", .vStr t)] =
        .ok [("title", .vStr t), ("client_id", .vNull), ("manager_id", .vNull),
             ("status", .vStr "draft"), ("start_date", .vNull), ("due_date", .vNull),
             ("budget_eur", .vNull), ("description", .vNull)]) ∧
    (∀ p t : String, validate Task [("project_id", .vStr p), ("title", .vStr t)] =
        .ok [("project_id", .vStr p), ("title", .vStr t), ("assignee_id", .vNull),
             ("due_date", .vNull), ("status", .vStr "todo")]) ∧
    (∀ p : String, validate CEEApplication [("project_id", .vStr p)] =
        .ok [("project_id", .vStr p), ("status", .vStr "draft"),
             ("submission_date", .vNull), ("approval_date", .vNull),
             ("cee_volume_kwh", .vNull), ("cee_value_eur", .vNull)]) ∧
    (∀ p : String, validate MARApplication [("project_id", .vStr p)] =
        .ok [("project_id", .vStr p), ("status", .vStr "pre_application"),
             ("amount_eur", .vNull), ("last_update", .vNull)]) ∧
    (∀ p : String, validate Audit [("project_id", .vStr p)] =
        .ok [("project_id", .vStr p), ("status", .vStr "scheduled"),
             ("scheduled_date", .vNull), ("auditor_id", .vNull),
             ("report_document_id", .vNull)]) ∧
    (∀ m ∈ registry, ∀ (k : String) (v : Value),
      (∀ f ∈ m.fields, f.name ≠ k) →
      ∀ payload : Payload, validate m ((k, v) :: payload) = validate m payload) := by
  refine ⟨?_, ?_, ?_, ?_, ?_, ?_, ?_, ?_, ?_⟩
  · intro n e he
    simp [validate, User, validateField, lookupKey, validateValue, collectResults, he]
  · intro n
    simp [validate, Client, validateField, lookupKey, validateValue, collectResults]
  · intro t
    simp [validate, Document, validateField, lookupKey, validateValue, collectResults]
  · intro t
    simp [validate, Project, validateField, lookupKey, validateValue, collectResults]
  · intro p t
    simp [validate, Task, validateField, lookupKey, validateValue, collectResults]
  · intro p
    simp [validate, CEEApplication, validateField, lookupKey, validateValue,
          collectResults]
  · intro p
    simp [validate, MARApplication, validateField, lookupKey, validateValue,
          collectResults]
  · intro p
    simp [validate, Audit, validateField, lookupKey, validateValue, collectResults]
  · intro m _ k v hk payload
    refine congrArg collectResults (List.map_congr_left ?_)
    intro f hf
    have hlk : lookupKey f.name ((k, v) :: payload) = lookupKey f.name payload :=
      lookupKey_cons_ne v payload (Ne.symm (hk f hf))
    rw [validateField, validateField, hlk]

/-- Witness for C3: a concrete required-only `User` payload normalizes with
defaults, and a concrete unknown key is ignored. -/
theorem C3_required_only_payload_defaults_witness :
    validate User [("name", .vStr "Alice"), ("email", .vStr "a@b.co")] =
      .ok [("name", .vStr "Alice"), ("email", .vStr "a@b.co"),
           ("role", .vStr "client"), ("is_active", .vBool true)] ∧
    validate User
        [("favorite_color", .vStr "green"), ("name", .vStr "Alice"),
         ("email", .vStr "a@b.co")] =
      validate User [("name", .vStr "Alice"), ("email", .vStr "a@b.co")] :=
  ⟨C3_required_only_payload_defaults.1 "Alice" "a@b.co" (by decide),
   C3_required_only_payload_defaults.2.2.2.2.2.2.2.2 User (by decide)
     "favorite_color" (.vStr "green") (by decide)
     [("name", .vStr "Alice"), ("email", .vStr "a@b.co")]⟩

/-- C10: every `Optional` field accepts an explicitly supplied null and the
normalized record keeps it null — the declared default is applied only when
the field is absent.  In particular a validated `Document` may carry
`version = null` despite the declared default 1 and the `ge=1` bound, while
omitting `version` yields the default 1. -/
theorem C10_explicit_null_overrides_default :
    (∀ m ∈ registry, ∀ f ∈ m.fields, f.nullable = true →
      validateValue f .vNull = .ok .vNull) ∧
    (∀ t : String, validate Document [("title", .vStr t), ("version", .vNull)] =
      .ok [("project_id", .vNull), ("title", .vStr t), ("doc_type", .vStr "other"),
           ("url", .vNull), ("version", .vNull), ("notes", .vNull)]) ∧
    (∀ t : String, validate Document [("title", .vStr t)] =
      .ok [("project_id", .vNull), ("title", .vStr t), ("doc_type", .vStr "other"),
           ("url", .vNull), ("version", .vNum 1), ("notes", .vNull)]) := by
  refine ⟨?_, ?_, ?_⟩
  · intro m _ f _ hnull
    exact validateValue_nullable hnull
  · intro t
    simp [validate, Document, validateField, lookupKey, validateValue, collectResults]
  · intro t
    simp [validate, Document, validateField, lookupKey, validateValue, collectResults]

/-- The `version` field of `Document`, for use as a concrete
instantiation. -/
def documentVersionField : FieldSpec :=
  { name := "version", ftype := .int, nullable := true,
    default := some (.vNum 1), ge := some 1,
    description := some "Version number" }

/-- Witness for C10: `Document.version` accepts an explicit null, and a
concrete `Document` payload keeps it null. -/
theorem C10_explicit_null_overrides_default_witness :
    validateValue documentVersionField .vNull = .ok .vNull ∧
    validate Document [("title", .vStr "t"), ("version", .vNull)] =
      .ok [("project_id", .vNull), ("title", .vStr "t"), ("doc_type", .vStr "other"),
           ("url", .vNull), ("version", .vNull), ("notes", .vNull)] :=
  ⟨C10_explicit_null_overrides_default.1 Document (by decide)
     documentVersionField (by decide) rfl,
   C10_explicit_null_overrides_default.2.1 "t"⟩

/-- C1: with the store reachable, `list_items` issues one query and returns
every stored document of the collection (up to the limit) with the
store-native `_id` renamed to a canonical string `id` and every other
stored binding — schema-declared or not — passed through unmodified in
order.  The stored documents are assumed to carry the store-native
identifier (the `findMany` interface) and no domain `id` field (the store
identifier is distinct from every domain field). -/
theorem C1_list_normalizes_identifier (st : AppState) (dbv : DBState)
    (collection : String) (limit : Option Nat) (hdb : st.db = some dbv)
    (hdocs : ∀ d ∈ get_documents dbv collection limit,
      hasKey "_id" d = true ∧ hasKey "id" d = false) :
    list_items st collection limit =
      (.ok ((get_documents dbv collection limit).map normalizeDoc),
        [.query collection limit]) ∧
    ∀ o ∈ (get_documents dbv collection limit).map normalizeDoc,
      lookupKey "_id" o = none ∧
      (∃ s : String, lookupKey "id" o = some (.vStr s)) ∧
      ∃ d ∈ get_documents dbv collection limit,
        o = normalizeDoc d ∧ removeKey "id" o = removeKey "_id" d := by
  constructor
  · rw [list_items, hdb]
  · intro o ho
    obtain ⟨d, hd, rfl⟩ := List.mem_map.mp ho
    obtain ⟨h1, h2⟩ := hdocs d hd
    obtain ⟨v, hv⟩ := Option.isSome_iff_exists.mp h1
    have h2' : lookupKey "id" d = none := by
      cases hlook : lookupKey "id" d with
      | none => rfl
      | some w => rw [hasKey, hlook] at h2; simp at h2
    obtain ⟨_, hnoid, hid, hrest⟩ := normalizeDoc_spec hv h2'
    exact ⟨hnoid, ⟨strOfValue v, hid⟩, d, hd, rfl, hrest⟩

/-- A concrete store for the C1 witness: one `project` document carrying a
store-native identifier, a schema field, and a schema-drift field. -/
def c1StoreState : DBState :=
  [("project",
    [[("_id", Value.vOid "64f0aa"), ("title", Value.vStr "Roof insulation"),
      ("legacy_flag", Value.vBool true)]])]

/-- Witness for C1 on the concrete store. -/
theorem C1_list_normalizes_identifier_witness :
    list_items { db := some c1StoreState } "project" (some 100) =
      (.ok ((get_documents c1StoreState "project" (some 100)).map normalizeDoc),
        [.query "project" (some 100)]) ∧
    ∀ o ∈ (get_documents c1StoreState "project" (some 100)).map normalizeDoc,
      lookupKey "_id" o = none ∧
      (∃ s : String, lookupKey "id" o = some (.vStr s)) ∧
      ∃ d ∈ get_documents c1StoreState "project" (some 100),
        o = normalizeDoc d ∧ removeKey "id" o = removeKey "_id" d :=
  C1_list_normalizes_identifier { db := some c1StoreState } c1StoreState
    "project" (some 100) rfl (by decide)

end ERFMS
